import Mathlib

/-!
Verification of the button-handling state machine of the cwsw board package
(src/common/src/cwsw_bsp_buttons.c, plus the board header and GTK-side
digital-input simulation in src/unnamed/part_000 and src/unnamed/part_001).

The C code is shallowly embedded: the per-button static arrays inside the
state functions become explicit fields of a global-state record `BtnSt`
(each piece of per-button state is a total map from the button index), the
pointer arguments become `Option` values, and each state function returns the
updated global state together with the (possibly rewritten) event, the value
written through the guard-output pointer, and the numeric return code.
Machine integers are modelled as `Nat` with explicit reductions mod 2^8
where the C type (uint8_t read_bits) makes overflow relevant.
-/

namespace CwswBoard

/-! ## Constants -/

/-- Reasons for exiting a state, from the anonymous enum in
cwsw_bsp_buttons.c line 31: kReasonNone, kReasonTwitchNoted,
kReasonDebounced, kReasonTimeout, kReasonButtonUnstuck. -/
def kReasonNone : Nat := 0

/-- Reason code: a twitch (single changed bit) was noted. -/
def kReasonTwitchNoted : Nat := 1

/-- Reason code: debounce completed. -/
def kReasonDebounced : Nat := 2

/-- Reason code: a state timer expired. -/
def kReasonTimeout : Nat := 3

/-- Reason code: a stuck button came unstuck. -/
def kReasonButtonUnstuck : Nat := 4

/-- Modelled from the spec: the state-phase codes come from the external SME
(state-machine engine) header, which is not part of this repository snapshot.
The spec (section 3, State-phase marker) lists the phases
{Uninit, Operational, Exit, Finished} as a small integer incremented on each
invocation; the C initializer {kStateUninit} zero-fills the arrays, pinning
kStateUninit = 0, and the post-increment arithmetic in the state functions
pins Operational, Exit, Finished as the three successive values. -/
def kStateUninit : Nat := 0

/-- Phase code: state is in its operational (operate) phase. -/
def kStateOperational : Nat := 1

/-- Phase code: the next invocation performs the exit action. -/
def kStateExit : Nat := 2

/-- Phase code: the state has finished; the SME finalizes the state. -/
def kStateFinished : Nat := 3

/-- Modelled from the spec: clock tic constants from the external clock
service header (not in this snapshot); tics are milliseconds here, which
matches the 10-ms alarm cadence stated in the source comments. -/
def tmr10ms : Nat := 10

/-- One hundred milliseconds of clock tics. -/
def tmr100ms : Nat := 100

/-- Five hundred milliseconds of clock tics. -/
def tmr500ms : Nat := 500

/-- One second of clock tics. -/
def tmr1000ms : Nat := 1000

/-- Stuck-button timeout, cwsw_bsp_buttons.c line 36: tmr1000ms * 30. -/
def kButtonStuckTimeoutValue : Nat := tmr1000ms * 30

/-- Debounce timeout, cwsw_bsp_buttons.c line 50: tmr500ms + tmr100ms. -/
def kTmButtonDebounceTime : Nat := tmr500ms + tmr100ms

/-- Number of board buttons: the eBoardButtons enum in the board header
(src/unnamed/part_000) has entries None, Button0..Button7, NumButtons,
so kBoardNumButtons = 9. -/
def kBoardNumButtons : Nat := 9

/-- Modelled from the spec: the event identifiers come from the project
configuration header (cwsw_bsp_buttons_cfg.h), which is not in this
snapshot. Only their distinctness and nonzero-ness matter to the code under
verification; the concrete values are arbitrary. -/
def evBtnReleased : Nat := 101

/-- Event id for a debounced button press (source spelling kept). -/
def evBntPressed : Nat := 102

/-- Event id of the periodic button-task tick event. -/
def evButton_Task : Nat := 103

/-- Event id posted when a stuck button is detected. -/
def evButton_BtnStuck : Nat := 104

/-- Event id posted when a stuck button is released. -/
def evButton_BtnUnstuck : Nat := 105

/-! ## Data model -/

/-- An event of the external event queue: tEvQ_Event has a numeric event id
and a numeric data word (the button state machine stores the button index in
evData). -/
structure EvQEvent where
  evId : Nat
  evData : Nat
  deriving DecidableEq, Repr

/-- Global mutable state touched by the button module. Each per-button
static array of the C source becomes a total map from the button index.
Field naming: db- fields are the statics of stDebounceButton, st- of
stStart, rel- of stButtonReleased, pr- of stButtonPressed, sk- of
stButtonStuck; inputbits and buttonstatus are the digital-input simulation
statics of src/unnamed/part_001; now is the current clock-tic count used by
the modelled clock service (Set arms deadline now + duration, TM reports
expiry once now reaches the deadline). -/
@[ext] structure BtnSt where
  /-- Current clock tics (modelled clock service). -/
  now : Nat
  /-- buttoninputbits of part_001: per-button 64-bit synthetic stream. -/
  inputbits : Nat → Nat
  /-- buttonstatus of part_001: bitmapped image of current button state. -/
  buttonstatus : Nat
  /-- statephase array of stDebounceButton. -/
  dbPhase : Nat → Nat
  /-- tmrMyStateTimer array of stDebounceButton (armed deadlines). -/
  dbTimer : Nat → Nat
  /-- evId array of stDebounceButton. -/
  dbEvId : Nat → Nat
  /-- reason3 array of stDebounceButton. -/
  dbReason3 : Nat → Nat
  /-- read_bits array of stDebounceButton: the 8-bit debounce accumulator. -/
  dbReadBits : Nat → Nat
  /-- tmrdebounce of stDebounceButton: a single shared static scalar. -/
  dbTmrScratch : Nat
  /-- statephase array of stStart. -/
  stPhase : Nat → Nat
  /-- evId array of stStart. -/
  stEvId : Nat → Nat
  /-- statephase array of stButtonReleased. -/
  relPhase : Nat → Nat
  /-- statephase array of stButtonPressed. -/
  prPhase : Nat → Nat
  /-- tmrPressedStateTimer array of stButtonPressed (armed deadlines). -/
  prTimer : Nat → Nat
  /-- evId array of stButtonPressed. -/
  prEvId : Nat → Nat
  /-- reason2 array of stButtonPressed. -/
  prReason2 : Nat → Nat
  /-- reason3 array of stButtonPressed. -/
  prReason3 : Nat → Nat
  /-- tmrPressed of stButtonPressed: a single shared static scalar. -/
  prTmrScratch : Nat
  /-- statephase array of stButtonStuck. -/
  skPhase : Nat → Nat
  /-- evId array of stButtonStuck. -/
  skEvId : Nat → Nat

/-- Result of one state-function invocation: the updated global state, the
event as left in the caller's memory (none when the event pointer was null),
the value written through the guard-output pointer (none when nothing was
written), and the numeric return code (the statephase value). -/
structure StepOut where
  st : BtnSt
  ev : Option EvQEvent
  extra : Option Nat
  ret : Nat

/-! ## Digital-input layer (src/unnamed/part_001) -/

/-- di_read_next_button_input_bit, part_001 lines 195-207: destructive read
of the least-significant bit of the per-button synthetic stream; the stored
value is halved by the read; if the bit read is clear and the remaining
stream is empty, fall back to the button's bit of the cumulative
buttonstatus bitmap. -/
def di_read_next_button_input_bit (st : BtnSt) (idx : Nat) : Bool × BtnSt :=
  let retval := st.inputbits idx % 2 = 1
  let v' := st.inputbits idx / 2
  let st' := { st with inputbits := Function.update st.inputbits idx v' }
  if !retval && v' = 0 then
    (Nat.testBit st.buttonstatus idx, st')
  else
    (retval, st')

/-! ## State functions (cwsw_bsp_buttons.c) -/

/-- stDebounceButton, cwsw_bsp_buttons.c lines 88-162. The switch on the
post-incremented statephase is rendered as: phase = Operational runs the
operate case, phase = Exit runs the exit case, and every other phase value
(Uninit, Finished, or anything unexpected) runs the entry case, exactly as
the case labels kStateUninit / kStateFinished / default fall through to one
body. Each branch's record update is the net effect of the C
statements of that branch, in source order. -/
def stDebounceButton (st : BtnSt) (pev : Option EvQEvent) (hasExtra : Bool) :
    StepOut :=
  match pev, hasExtra with
  | none, _ => ⟨st, none, none, 0⟩
  | some ev, false => ⟨st, some ev, none, 0⟩
  | some ev, true =>
    let i := ev.evData
    if st.dbPhase i = kStateOperational then
      -- operate: copy the per-button timer to the shared scalar, shift the
      -- accumulator left, OR in the next input bit (lines 123-149)
      let scr := st.dbTimer i
      let rd := di_read_next_button_input_bit st i
      let rb := ((st.dbReadBits i <<< 1) ||| (if rd.1 then 1 else 0)) % 256
      if rb = 0 then
        ⟨{ rd.2 with
            dbTmrScratch := scr,
            dbReadBits := Function.update st.dbReadBits i rb,
            dbEvId := Function.update st.dbEvId i evBtnReleased,
            dbReason3 := Function.update st.dbReason3 i kReasonDebounced,
            dbPhase := Function.update st.dbPhase i kStateExit },
          some ev, none, kStateExit⟩
      else if rb = 255 then
        ⟨{ rd.2 with
            dbTmrScratch := scr,
            dbReadBits := Function.update st.dbReadBits i rb,
            dbEvId := Function.update st.dbEvId i evBntPressed,
            dbReason3 := Function.update st.dbReason3 i kReasonDebounced,
            dbPhase := Function.update st.dbPhase i kStateExit },
          some ev, none, kStateExit⟩
      else if scr ≤ st.now then
        ⟨{ rd.2 with
            dbTmrScratch := scr,
            dbReadBits := Function.update st.dbReadBits i rb,
            dbReason3 := Function.update st.dbReason3 i kReasonTimeout,
            dbPhase := Function.update st.dbPhase i kStateExit },
          some ev, none, kStateExit⟩
      else
        -- nothing of note happened: the post-increment is undone, the
        -- phase stays Operational
        ⟨{ rd.2 with
            dbTmrScratch := scr,
            dbReadBits := Function.update st.dbReadBits i rb },
          some ev, none, kStateOperational⟩
    else if st.dbPhase i = kStateExit then
      -- exit: write the exit-reason triple back (lines 151-157)
      ⟨{ st with dbPhase := Function.update st.dbPhase i kStateFinished },
        some { evId := st.dbEvId i, evData := i },
        some (st.dbReason3 i), kStateFinished⟩
    else
      -- entry (Uninit, Finished, or any unexpected phase value):
      -- save the inbound event id, force the phase to Operational, seed the
      -- accumulator with 1, arm the debounce timer (lines 104-121)
      ⟨{ st with
          dbEvId := Function.update st.dbEvId i ev.evId,
          dbPhase := Function.update st.dbPhase i kStateOperational,
          dbReadBits := Function.update st.dbReadBits i 1,
          dbTimer := Function.update st.dbTimer i
            (st.now + kTmButtonDebounceTime) },
        some ev, none, kStateOperational⟩

/-- stStart, cwsw_bsp_buttons.c lines 165-208. -/
def stStart (st : BtnSt) (pev : Option EvQEvent) (hasExtra : Bool) :
    StepOut :=
  match pev, hasExtra with
  | none, _ => ⟨st, none, none, 0⟩
  | some ev, false => ⟨st, some ev, none, 0⟩
  | some ev, true =>
    let i := ev.evData
    if st.stPhase i = kStateOperational then
      -- operate: leave as soon as we start (phase advances to Exit)
      ⟨{ st with stPhase := Function.update st.stPhase i kStateExit },
        some ev, none, kStateExit⟩
    else if st.stPhase i = kStateExit then
      ⟨{ st with stPhase := Function.update st.stPhase i kStateFinished },
        some { evId := st.stEvId i, evData := i },
        some kReasonNone, kStateFinished⟩
    else
      ⟨{ st with
          stPhase := Function.update st.stPhase i kStateOperational,
          stEvId := Function.update st.stEvId i ev.evId },
        some ev, none, kStateOperational⟩

/-- stButtonReleased, cwsw_bsp_buttons.c lines 219-269. The operate phase
reads one input bit for the current button; a zero bit keeps the state in
place, a one bit lets the phase advance to Exit. The exit phase keeps the
inbound event id, writes the button index into evData and TwitchNoted into
the guard output. -/
def stButtonReleased (st : BtnSt) (pev : Option EvQEvent) (hasExtra : Bool) :
    StepOut :=
  match pev, hasExtra with
  | none, _ => ⟨st, none, none, 0⟩
  | some ev, false => ⟨st, some ev, none, 0⟩
  | some ev, true =>
    let i := ev.evData
    if st.relPhase i = kStateOperational then
      let rd := di_read_next_button_input_bit st i
      if rd.1 then
        ⟨{ rd.2 with relPhase := Function.update st.relPhase i kStateExit },
          some ev, none, kStateExit⟩
      else
        ⟨rd.2, some ev, none, kStateOperational⟩
    else if st.relPhase i = kStateExit then
      ⟨{ st with relPhase := Function.update st.relPhase i kStateFinished },
        some { evId := ev.evId, evData := i },
        some kReasonTwitchNoted, kStateFinished⟩
    else
      ⟨{ st with relPhase := Function.update st.relPhase i kStateOperational },
        some ev, none, kStateOperational⟩

/-- stDebouncePress, cwsw_bsp_buttons.c lines 272-276: delegates to
stDebounceButton. -/
def stDebouncePress : BtnSt → Option EvQEvent → Bool → StepOut :=
  stDebounceButton

/-- stButtonPressed, cwsw_bsp_buttons.c lines 278-345. Entry arms the long
stuck timeout and presets reason3 to None. Operate copies the per-button
timer to the shared scalar, reads one bit for the current button; a zero bit
records (reason2 = button, reason3 = TwitchNoted); otherwise an expired
stuck timer records (reason2 = 0, reason3 = Timeout); otherwise stay. Exit
writes back (saved event id, reason2, reason3). -/
def stButtonPressed (st : BtnSt) (pev : Option EvQEvent) (hasExtra : Bool) :
    StepOut :=
  match pev, hasExtra with
  | none, _ => ⟨st, none, none, 0⟩
  | some ev, false => ⟨st, some ev, none, 0⟩
  | some ev, true =>
    let i := ev.evData
    if st.prPhase i = kStateOperational then
      let scr := st.prTimer i
      let rd := di_read_next_button_input_bit st i
      if !rd.1 then
        ⟨{ rd.2 with
            prTmrScratch := scr,
            prReason2 := Function.update st.prReason2 i i,
            prReason3 := Function.update st.prReason3 i kReasonTwitchNoted,
            prPhase := Function.update st.prPhase i kStateExit },
          some ev, none, kStateExit⟩
      else if scr ≤ st.now then
        ⟨{ rd.2 with
            prTmrScratch := scr,
            prReason2 := Function.update st.prReason2 i 0,
            prReason3 := Function.update st.prReason3 i kReasonTimeout,
            prPhase := Function.update st.prPhase i kStateExit },
          some ev, none, kStateExit⟩
      else
        ⟨{ rd.2 with prTmrScratch := scr },
          some ev, none, kStateOperational⟩
    else if st.prPhase i = kStateExit then
      ⟨{ st with prPhase := Function.update st.prPhase i kStateFinished },
        some { evId := st.prEvId i, evData := st.prReason2 i },
        some (st.prReason3 i), kStateFinished⟩
    else
      ⟨{ st with
          prEvId := Function.update st.prEvId i ev.evId,
          prReason3 := Function.update st.prReason3 i kReasonNone,
          prPhase := Function.update st.prPhase i kStateOperational,
          prTimer := Function.update st.prTimer i
            (st.now + kButtonStuckTimeoutValue) },
        some ev, none, kStateOperational⟩

/-- stDebounceRelease, cwsw_bsp_buttons.c lines 347-351: delegates to
stDebounceButton. -/
def stDebounceRelease : BtnSt → Option EvQEvent → Bool → StepOut :=
  stDebounceButton

/-- stButtonStuck, cwsw_bsp_buttons.c lines 353-400. Note two faithful
renderings of source peculiarities: the entry case does not force the phase
marker to Operational (it only keeps the post-increment, line 364-371), and
the operate case reads the input bit of button 0 regardless of the current
button (line 375). -/
def stButtonStuck (st : BtnSt) (pev : Option EvQEvent) (hasExtra : Bool) :
    StepOut :=
  match pev, hasExtra with
  | none, _ => ⟨st, none, none, 0⟩
  | some ev, false => ⟨st, some ev, none, 0⟩
  | some ev, true =>
    let i := ev.evData
    if st.skPhase i = kStateOperational then
      let rd := di_read_next_button_input_bit st 0
      if rd.1 then
        ⟨rd.2, some ev, none, kStateOperational⟩
      else
        ⟨{ rd.2 with skPhase := Function.update st.skPhase i kStateExit },
          some ev, none, kStateExit⟩
    else if st.skPhase i = kStateExit then
      ⟨{ st with skPhase := Function.update st.skPhase i kStateFinished },
        some { evId := st.skEvId i, evData := i },
        some kReasonButtonUnstuck, kStateFinished⟩
    else
      -- entry: saves the event id; the phase marker is merely the
      -- post-incremented old value (no unilateral reset in the source)
      ⟨{ st with
          skEvId := Function.update st.skEvId i ev.evId,
          skPhase := Function.update st.skPhase i (st.skPhase i + 1) },
        some ev, none, st.skPhase i + 1⟩

/-! ## Transition table and event notifier (cwsw_bsp_buttons.c) -/

/-- Identity of a logical state of the button state machine. The C table
matches on the state-function pointer; the six distinct C functions
(stStart, stButtonReleased, stDebouncePress, stButtonPressed,
stDebounceRelease, stButtonStuck) give six distinct identities even though
the two debounce states share one implementation. -/
inductive StateId where
  | Start
  | ButtonReleased
  | DebouncePress
  | ButtonPressed
  | DebounceRelease
  | ButtonStuck
  deriving DecidableEq, Repr

/-- Identity of a transition function of the table: NullTransition or
NotifyBtnStateChg. -/
inductive TransFn where
  | nullTransition
  | notifyBtnStateChg
  deriving DecidableEq, Repr

/-- One row of tblTransitions: current state, Reason1 (event id), Reason2
match value (0xFF is the don't-care marker), Reason3 (reason code), next
state, transition function. -/
structure TransRow where
  cur : StateId
  ev : Nat
  r2 : Nat
  reason3 : Nat
  next : StateId
  func : TransFn
  deriving DecidableEq, Repr

/-- tblTransitions, cwsw_bsp_buttons.c lines 478-497, row for row. -/
def tblTransitions : List TransRow := [
  ⟨.Start,           evButton_Task, 0xFF, kReasonNone,          .ButtonReleased,  .nullTransition⟩,
  ⟨.ButtonReleased,  evButton_Task, 0xFF, kReasonTwitchNoted,   .DebouncePress,   .nullTransition⟩,
  ⟨.DebouncePress,   evBntPressed,  0xFF, kReasonDebounced,     .ButtonPressed,   .notifyBtnStateChg⟩,
  ⟨.DebouncePress,   evBtnReleased, 0xFF, kReasonDebounced,     .ButtonReleased,  .nullTransition⟩,
  ⟨.DebouncePress,   evButton_Task, 0xFF, kReasonTimeout,       .ButtonReleased,  .nullTransition⟩,
  ⟨.ButtonPressed,   evButton_Task, 0xFF, kReasonTwitchNoted,   .DebounceRelease, .nullTransition⟩,
  ⟨.ButtonPressed,   evButton_Task, 0xFF, kReasonTimeout,       .ButtonStuck,     .notifyBtnStateChg⟩,
  ⟨.DebounceRelease, evBtnReleased, 0xFF, kReasonDebounced,     .ButtonReleased,  .notifyBtnStateChg⟩,
  ⟨.DebounceRelease, evBntPressed,  0xFF, kReasonDebounced,     .ButtonPressed,   .nullTransition⟩,
  ⟨.ButtonStuck,     evButton_Task, 0xFF, kReasonButtonUnstuck, .ButtonReleased,  .notifyBtnStateChg⟩]

/-- Modelled from the spec: the SME's table lookup (the engine itself lives
outside this repository snapshot). Per spec section 4.1, each row matches on
(current state identity, inbound event id, a don't-care mask applied to
Reason2, specific reason code), and the first matching row in table order
wins; no matching row yields no transition. -/
def lookupTransition (cur : StateId) (evId r2 r3 : Nat) : Option TransRow :=
  tblTransitions.find? fun row =>
    row.cur == cur && row.ev == evId && (row.r2 == 0xFF || row.r2 == r2) &&
      row.reason3 == r3

/-- NotifyBtnStateChg, cwsw_bsp_buttons.c lines 430-467: maps the exit
reason to the posted event id and posts when the resulting event id is
nonzero. The returned Option is the event handed to Cwsw_EvQX__PostEvent
(none when the post is suppressed); the C code casts the post's return
status to void, so the outcome of the post does not feed back anywhere. -/
def NotifyBtnStateChg (ev : EvQEvent) (extra : Nat) : Option EvQEvent :=
  let ev' :=
    if extra = kReasonDebounced then
      if ev.evId = evBtnReleased ∨ ev.evId = evBntPressed then ev
      else { ev with evId := 0 }
    else if extra = kReasonTimeout then { ev with evId := evButton_BtnStuck }
    else if extra = kReasonButtonUnstuck then
      { ev with evId := evButton_BtnUnstuck }
    else { ev with evId := 0 }
  if ev'.evId ≠ 0 then some ev' else none

/-! ## Button task (cwsw_bsp_buttons.c lines 511-534) -/

/-- State owned by Btn_tsk_ButtonRead: the per-button persisted
current-state pointers (none is the C NULL), and the enabled/disabled state
of the Btn_tmr_ButtonRead re-trigger alarm (true = kTmrState_Enabled). -/
structure TaskState where
  curr : Nat → Option StateId
  tmrEnabled : Bool

/-- Loop body of Btn_tsk_ButtonRead over a list of button indices: for each
index, a null persisted pointer is first replaced by stStart, the SME is
invoked (abstracted as the function sme from button index and current state
to the next-state pointer), the result is persisted, and a null result
disables the re-trigger alarm. -/
def btnReadLoop (sme : Nat → StateId → Option StateId) :
    List Nat → TaskState → TaskState
  | [], ts => ts
  | i :: rest, ts =>
    let cur := (ts.curr i).getD StateId.Start
    let nxt := sme i cur
    btnReadLoop sme rest
      { curr := Function.update ts.curr i nxt,
        tmrEnabled := if nxt = none then false else ts.tmrEnabled }

/-- Btn_tsk_ButtonRead, cwsw_bsp_buttons.c lines 511-534: one pass over all
buttons, from index kBoardNumButtons - 1 down to 0 (the C while loop
decrements idxbutton from TABLE_SIZE(currentstate)). -/
def Btn_tsk_ButtonRead (sme : Nat → StateId → Option StateId)
    (ts : TaskState) : TaskState :=
  btnReadLoop sme (List.range kBoardNumButtons).reverse ts

/-! ## Tick drivers used by the statements below -/

/-- One sampling tick delivered to the debounce routine of button i: the
10-ms re-trigger alarm fires (the clock advances by tmr10ms) and the SME
invokes stDebounceButton with the tick event carrying the button index, as
Btn_tsk_ButtonRead does. -/
def dbTick (i : Nat) (st : BtnSt) : BtnSt :=
  (stDebounceButton { st with now := st.now + tmr10ms }
    (some { evId := evButton_Task, evData := i }) true).st

/-- k consecutive sampling ticks delivered to the debounce routine of
button i. -/
def dbRun (i : Nat) : Nat → BtnSt → BtnSt
  | 0, st => st
  | k + 1, st => dbRun i k (dbTick i st)

/-- All-zero base state, used to build the concrete states of the witnesses
and counterexamples. -/
def zeroSt : BtnSt where
  now := 0
  inputbits := fun _ => 0
  buttonstatus := 0
  dbPhase := fun _ => 0
  dbTimer := fun _ => 0
  dbEvId := fun _ => 0
  dbReason3 := fun _ => 0
  dbReadBits := fun _ => 0
  dbTmrScratch := 0
  stPhase := fun _ => 0
  stEvId := fun _ => 0
  relPhase := fun _ => 0
  prPhase := fun _ => 0
  prTimer := fun _ => 0
  prEvId := fun _ => 0
  prReason2 := fun _ => 0
  prReason3 := fun _ => 0
  prTmrScratch := 0
  skPhase := fun _ => 0
  skEvId := fun _ => 0

/-- One invocation of the debounce routine as the SME delivers it: the 10-ms
re-trigger alarm fires (the clock advances by tmr10ms) and stDebounceButton
runs with the tick event carrying the button index. -/
def dbStep (i : Nat) (st : BtnSt) : StepOut :=
  stDebounceButton { st with now := st.now + tmr10ms }
    (some { evId := evButton_Task, evData := i }) true

/-- The accumulator value that one operate cycle of the debounce routine
computes for button i: the stored accumulator shifted left one position,
OR'd with the bit the cycle reads, reduced to eight bits. -/
def rbExpr (st : BtnSt) (i : Nat) : Nat :=
  ((st.dbReadBits i <<< 1) |||
    (if (di_read_next_button_input_bit st i).1 then 1 else 0)) % 256

/-! ## Theorems -/

/-- Helper: the state left behind by one digital-input read touches only
the addressed button's synthetic stream, which it halves. -/
lemma di_read_snd (st : BtnSt) (idx : Nat) :
    (di_read_next_button_input_bit st idx).2 =
      { st with inputbits :=
          Function.update st.inputbits idx (st.inputbits idx / 2) } := by
  show (if _ then _ else _ : Bool × BtnSt).2 = _
  split <;> rfl

/-- C8: every state function, given a null event pointer or a null
guard-output pointer, returns immediately with status 0, leaves the global
state exactly as it was, and writes nothing through the pointers. -/
theorem state_functions_null_guard (st : BtnSt) (e : EvQEvent) :
    (stDebounceButton st none true = ⟨st, none, none, 0⟩ ∧
      stDebounceButton st none false = ⟨st, none, none, 0⟩ ∧
      stDebounceButton st (some e) false = ⟨st, some e, none, 0⟩) ∧
    (stStart st none true = ⟨st, none, none, 0⟩ ∧
      stStart st none false = ⟨st, none, none, 0⟩ ∧
      stStart st (some e) false = ⟨st, some e, none, 0⟩) ∧
    (stButtonReleased st none true = ⟨st, none, none, 0⟩ ∧
      stButtonReleased st none false = ⟨st, none, none, 0⟩ ∧
      stButtonReleased st (some e) false = ⟨st, some e, none, 0⟩) ∧
    (stButtonPressed st none true = ⟨st, none, none, 0⟩ ∧
      stButtonPressed st none false = ⟨st, none, none, 0⟩ ∧
      stButtonPressed st (some e) false = ⟨st, some e, none, 0⟩) ∧
    (stButtonStuck st none true = ⟨st, none, none, 0⟩ ∧
      stButtonStuck st none false = ⟨st, none, none, 0⟩ ∧
      stButtonStuck st (some e) false = ⟨st, some e, none, 0⟩) :=
  ⟨⟨rfl, rfl, rfl⟩, ⟨rfl, rfl, rfl⟩, ⟨rfl, rfl, rfl⟩, ⟨rfl, rfl, rfl⟩,
    ⟨rfl, rfl, rfl⟩⟩

/-- C9: di_read_next_button_input_bit is a destructive read: each call
halves the stored synthetic stream of the addressed button (touching
nothing else of the state), and it returns the least-significant bit of the
stored stream, except that when that bit is 0 and the remaining (halved)
stream is zero, it returns the button's bit of the cumulative buttonstatus
bitmap instead, so the result is well defined after exhaustion. -/
theorem di_read_destructive_read (st : BtnSt) (idx : Nat) :
    (di_read_next_button_input_bit st idx).2 =
      { st with inputbits :=
          Function.update st.inputbits idx (st.inputbits idx / 2) } ∧
    (di_read_next_button_input_bit st idx).1 =
      (if st.inputbits idx % 2 = 1 then true
       else if st.inputbits idx / 2 = 0 then Nat.testBit st.buttonstatus idx
       else false) := by
  by_cases h1 : st.inputbits idx % 2 = 1 <;>
    by_cases h2 : st.inputbits idx / 2 = 0 <;>
      simp [di_read_next_button_input_bit, h1, h2]

/-- Concrete state for the C3 record: button 1 is in the stuck state's
operate phase, button 0 owns a pending synthetic stream 5 (binary 101),
button 1 owns a pending synthetic stream 9. -/
def c3St : BtnSt :=
  { zeroSt with
    skPhase := Function.update zeroSt.skPhase 1 kStateOperational,
    inputbits :=
      Function.update (Function.update zeroSt.inputbits 0 5) 1 9 }

/-- C3 (code bug record): one operate invocation of the stuck state for
button 1 destructively consumes a bit of button 0's pending synthetic
input-bit stream (5 becomes 2) while button 1's own stream is left
untouched, because stButtonStuck reads di_read_next_button_input_bit(0)
with a hard-coded index instead of the current button. -/
theorem stButtonStuck_consumes_button0_stream :
    ((stButtonStuck c3St
        (some { evId := evButton_Task, evData := 1 }) true).st.inputbits 0
      = 2) ∧
    ((stButtonStuck c3St
        (some { evId := evButton_Task, evData := 1 }) true).st.inputbits 1
      = 9) := by
  decide

/-- Concrete state for the C6 record: button 1's stuck-state phase marker
holds the corrupted value 7, and button 0 owns a pending stream 5 whose
consumption would betray an operate cycle. -/
def c6St : BtnSt :=
  { zeroSt with
    skPhase := Function.update zeroSt.skPhase 1 7,
    inputbits := Function.update zeroSt.inputbits 0 5 }

/-- C6 (code bug record): stButtonStuck invoked on a corrupted phase marker
(value 7) does execute the entry behavior (the inbound event id is saved),
but the phase marker is merely post-incremented to 8 instead of being
restored to Operational, so the following invocation runs the entry
behavior again (the phase moves to 9 and no input bit is ever consumed):
the state does not self-heal into the normal operate/exit cycle. -/
theorem stButtonStuck_phase_not_selfhealed :
    ((stButtonStuck c6St
        (some { evId := evButton_Task, evData := 1 }) true).st.skEvId 1
      = evButton_Task) ∧
    ((stButtonStuck c6St
        (some { evId := evButton_Task, evData := 1 }) true).st.skPhase 1
      = 8) ∧
    ((stButtonStuck (stButtonStuck c6St
          (some { evId := evButton_Task, evData := 1 }) true).st
        (some { evId := evButton_Task, evData := 1 }) true).st.skPhase 1
      = 9) ∧
    ((stButtonStuck (stButtonStuck c6St
          (some { evId := evButton_Task, evData := 1 }) true).st
        (some { evId := evButton_Task, evData := 1 }) true).st.inputbits 0
      = 5) := by
  decide

/-- Two Boolean all-scans agree when the predicates agree on the list. -/
lemma list_all_congr {α : Type} {l : List α} {p q : α → Bool}
    (h : ∀ x ∈ l, p x = q x) : l.all p = l.all q := by
  induction l with
  | nil => rfl
  | cons a rest ih =>
    simp only [List.all_cons, h a (List.mem_cons_self a rest)]
    rw [ih fun x hx => h x (List.mem_cons_of_mem a hx)]

/-- A Boolean all-scan is unchanged by reversing the list. -/
lemma list_all_reverse {α : Type} (l : List α) (p : α → Bool) :
    l.reverse.all p = l.all p := by
  induction l with
  | nil => rfl
  | cons a rest ih => simp [List.all_append, ih, Bool.and_comm]

/-- After the button-task loop has processed a duplicate-free list of button
indices, the re-trigger alarm is enabled exactly when it was enabled before
and every processed button's SME invocation returned a non-null next-state
pointer. -/
lemma btnReadLoop_tmrEnabled (sme : Nat → StateId → Option StateId)
    (l : List Nat) (hl : l.Nodup) (ts : TaskState) :
    (btnReadLoop sme l ts).tmrEnabled =
      (ts.tmrEnabled &&
        l.all fun i => (sme i ((ts.curr i).getD .Start)).isSome) := by
  induction l generalizing ts with
  | nil => simp [btnReadLoop]
  | cons i rest ih =>
    rw [List.nodup_cons] at hl
    simp only [btnReadLoop]
    rw [ih hl.2]
    have hall :
        (rest.all fun j =>
          (sme j (((Function.update ts.curr i
              (sme i ((ts.curr i).getD .Start))) j).getD .Start)).isSome) =
        (rest.all fun j => (sme j ((ts.curr j).getD .Start)).isSome) := by
      refine list_all_congr fun j hj => ?_
      have hji : j ≠ i := by rintro rfl; exact hl.1 hj
      rw [Function.update_noteq hji]
    rw [hall]
    cases hn : sme i ((ts.curr i).getD .Start) with
    | none => simp [hn]
    | some s => simp [hn, Bool.and_left_comm]

/-- C5 (amended): after one pass of the button task, the re-trigger alarm
is enabled exactly when it was enabled before the pass and every button's
SME invocation of this pass returned a non-null next-state pointer;
equivalently, the alarm ends up disabled as soon as at least one button
(not necessarily all of them) reaches the null sentinel. -/
theorem btn_task_alarm_disable (sme : Nat → StateId → Option StateId)
    (ts : TaskState) :
    (Btn_tsk_ButtonRead sme ts).tmrEnabled =
      (ts.tmrEnabled &&
        (List.range kBoardNumButtons).all fun i =>
          (sme i ((ts.curr i).getD .Start)).isSome) := by
  rw [Btn_tsk_ButtonRead,
    btnReadLoop_tmrEnabled sme _ (List.nodup_reverse.mpr (List.nodup_range _)),
    list_all_reverse]

/-- SME stub for the C5 counterexample: button 8 finishes (null), every
other button stays in its current state. -/
def c5sme : Nat → StateId → Option StateId :=
  fun i s => if i = 8 then none else some s

/-- Task state for the C5 counterexample: every button is persisted in the
ButtonReleased state and the alarm is enabled. -/
def c5ts : TaskState :=
  { curr := fun _ => some .ButtonReleased, tmrEnabled := true }

/-- C5 (counterexample): the claim that the alarm is disabled after a pass
if and only if every button's persisted next-state pointer is null fails:
with only button 8 finishing, the pass leaves the alarm disabled while
button 0's persisted pointer is still the non-null ButtonReleased state. -/
theorem btn_task_alarm_disable_iff_false :
    ¬ (((Btn_tsk_ButtonRead c5sme c5ts).tmrEnabled = false) ↔
      (∀ i < kBoardNumButtons, (Btn_tsk_ButtonRead c5sme c5ts).curr i = none)) := by
  decide

/-- Mapping contract of the event notifier for one exit-reason value: the
Debounced reason forwards the incoming event only when its id is the
Pressed or Released id and suppresses the post otherwise; Timeout posts the
ButtonStuck id; ButtonUnstuck posts the ButtonUnstuck id; every other
reason zeroes the event id and suppresses the post. A some result stands
for exactly one post to the external queue; the C code discards the post's
status, so a failed post is neither observed nor retried. -/
def NotifyMappingSpec (ev : EvQEvent) (extra : Nat) : Prop :=
  (extra = kReasonDebounced →
    (ev.evId = evBtnReleased ∨ ev.evId = evBntPressed) →
    NotifyBtnStateChg ev extra = some ev) ∧
  (extra = kReasonDebounced → ev.evId ≠ evBtnReleased →
    ev.evId ≠ evBntPressed → NotifyBtnStateChg ev extra = none) ∧
  (extra = kReasonTimeout →
    NotifyBtnStateChg ev extra =
      some { evId := evButton_BtnStuck, evData := ev.evData }) ∧
  (extra = kReasonButtonUnstuck →
    NotifyBtnStateChg ev extra =
      some { evId := evButton_BtnUnstuck, evData := ev.evData }) ∧
  (extra ≠ kReasonDebounced → extra ≠ kReasonTimeout →
    extra ≠ kReasonButtonUnstuck → NotifyBtnStateChg ev extra = none)

/-- C7: the event notifier maps exit reasons to posted event ids as the
specification states, for every incoming event and reason value. -/
theorem notify_event_mapping (ev : EvQEvent) (extra : Nat) :
    NotifyMappingSpec ev extra := by
  unfold NotifyMappingSpec
  refine ⟨?_, ?_, ?_, ?_, ?_⟩
  · rintro rfl (h | h) <;>
      simp [NotifyBtnStateChg, h, kReasonDebounced, evBtnReleased,
        evBntPressed]
  · rintro rfl h1 h2
    simp [NotifyBtnStateChg, h1, h2]
  · rintro rfl
    simp [NotifyBtnStateChg, kReasonTimeout, kReasonDebounced,
      evButton_BtnStuck]
  · rintro rfl
    simp [NotifyBtnStateChg, kReasonButtonUnstuck, kReasonDebounced,
      kReasonTimeout, evButton_BtnUnstuck]
  · intro h1 h2 h3
    simp [NotifyBtnStateChg, h1, h2, h3]

/-- C7 witness: the notifier forwards a debounced press of button 5
unchanged. -/
theorem notify_event_mapping_witness :
    NotifyMappingSpec { evId := evBntPressed, evData := 5 }
      kReasonDebounced :=
  notify_event_mapping { evId := evBntPressed, evData := 5 } kReasonDebounced

/-- C10: in the debounce operate cycle the terminal-pattern checks precede
the timeout check: when the freshly computed accumulator value is 0x00 or
0xFF on a cycle whose debounce timer has already expired, the state records
reason Debounced (with the Released or Pressed event id respectively) and
moves to its exit phase; Timeout is not recorded. -/
theorem debounce_terminal_beats_timeout (st : BtnSt) (ev : EvQEvent)
    (hp : st.dbPhase ev.evData = kStateOperational)
    (ht : st.dbTimer ev.evData ≤ st.now)
    (hrb : rbExpr st ev.evData = 0 ∨ rbExpr st ev.evData = 255) :
    (stDebounceButton st (some ev) true).st.dbReason3 ev.evData =
      kReasonDebounced ∧
    (stDebounceButton st (some ev) true).st.dbEvId ev.evData =
      (if rbExpr st ev.evData = 0 then evBtnReleased else evBntPressed) ∧
    (stDebounceButton st (some ev) true).st.dbPhase ev.evData =
      kStateExit := by
  rcases hrb with h | h <;>
    simp [stDebounceButton, hp, rbExpr] at h ⊢ <;>
    simp [h, Function.update_same]

/-- Concrete state for the C10 witness: button 0 is in the operate phase
with accumulator 127, its pending stream delivers a 1 bit, and the debounce
timer expired long ago. -/
def c10St : BtnSt :=
  { zeroSt with
    now := 50,
    dbPhase := Function.update zeroSt.dbPhase 0 kStateOperational,
    dbReadBits := Function.update zeroSt.dbReadBits 0 127,
    inputbits := Function.update zeroSt.inputbits 0 1 }

/-- C10 witness: with accumulator 127, an incoming 1 bit and an expired
timer, the operate cycle exits Debounced with the Pressed event id. -/
theorem debounce_terminal_beats_timeout_witness :
    c10St.dbPhase 0 = kStateOperational ∧ c10St.dbTimer 0 ≤ c10St.now ∧
    rbExpr c10St 0 = 255 ∧
    ((stDebounceButton c10St
        (some { evId := evButton_Task, evData := 0 }) true).st.dbReason3 0 =
      kReasonDebounced ∧
      (stDebounceButton c10St
        (some { evId := evButton_Task, evData := 0 }) true).st.dbEvId 0 =
        evBntPressed) := by
  refine ⟨by decide, by decide, by decide, ?_⟩
  have h := debounce_terminal_beats_timeout c10St
    { evId := evButton_Task, evData := 0 } (by decide) (by decide)
    (Or.inr (by decide))
  refine ⟨h.1, ?_⟩
  have h2 := h.2.1
  rwa [if_neg (by decide : ¬ rbExpr c10St 0 = 0)] at h2

/-- C2 (amended): when the debounce timer has expired on an operate cycle
whose accumulator reaches neither terminal pattern, the debounce routine
records reason Timeout keeping the saved inbound event id, advances to its
exit phase, and the exit invocation writes back (saved inbound event id,
button index, Timeout); the transition table row for DebouncePress under
the tick event and reason Timeout selects stButtonReleased. (The table has
no Timeout row at all for DebounceRelease; see the counterexample.) -/
theorem debounce_timeout_behavior (st : BtnSt) (ev : EvQEvent)
    (hp : st.dbPhase ev.evData = kStateOperational)
    (ht : st.dbTimer ev.evData ≤ st.now)
    (h0 : rbExpr st ev.evData ≠ 0) (hff : rbExpr st ev.evData ≠ 255) :
    (stDebounceButton st (some ev) true).st.dbReason3 ev.evData =
      kReasonTimeout ∧
    (stDebounceButton st (some ev) true).st.dbEvId ev.evData =
      st.dbEvId ev.evData ∧
    (stDebounceButton st (some ev) true).st.dbPhase ev.evData =
      kStateExit ∧
    (stDebounceButton (stDebounceButton st (some ev) true).st
        (some ev) true).ev =
      some { evId := st.dbEvId ev.evData, evData := ev.evData } ∧
    (stDebounceButton (stDebounceButton st (some ev) true).st
        (some ev) true).extra = some kReasonTimeout ∧
    (lookupTransition .DebouncePress evButton_Task ev.evData
        kReasonTimeout).map TransRow.next = some .ButtonReleased := by
  rw [rbExpr] at h0 hff
  refine ⟨?_, ?_, ?_, ?_, ?_, ?_⟩
  · simp [stDebounceButton, hp, h0, hff, ht, di_read_snd,
      Function.update_same]
  · simp [stDebounceButton, hp, h0, hff, ht, di_read_snd,
      Function.update_same]
  · simp [stDebounceButton, hp, h0, hff, ht, di_read_snd,
      Function.update_same]
  · simp [stDebounceButton, hp, h0, hff, ht, di_read_snd,
      Function.update_same, kStateOperational, kStateExit]
  · simp [stDebounceButton, hp, h0, hff, ht, di_read_snd,
      Function.update_same, kStateOperational, kStateExit]
  · simp [lookupTransition, tblTransitions, List.find?, evButton_Task,
      evBtnReleased, evBntPressed, kReasonNone, kReasonTwitchNoted,
      kReasonDebounced, kReasonTimeout, kReasonButtonUnstuck]

/-- Concrete state for the C2 witness: button 2 is in the operate phase
with accumulator 2, an exhausted stream delivering 0 bits, a saved inbound
event id, and an expired debounce timer. -/
def c2St : BtnSt :=
  { zeroSt with
    now := 700,
    dbPhase := Function.update zeroSt.dbPhase 2 kStateOperational,
    dbReadBits := Function.update zeroSt.dbReadBits 2 2,
    dbEvId := Function.update zeroSt.dbEvId 2 evButton_Task,
    dbTimer := Function.update zeroSt.dbTimer 2 650 }

/-- C2 witness: the timeout exit of button 2, run on c2St. -/
theorem debounce_timeout_behavior_witness :
    c2St.dbPhase 2 = kStateOperational ∧ c2St.dbTimer 2 ≤ c2St.now ∧
    rbExpr c2St 2 ≠ 0 ∧ rbExpr c2St 2 ≠ 255 ∧
    ((stDebounceButton c2St
        (some { evId := evButton_Task, evData := 2 }) true).st.dbReason3 2 =
      kReasonTimeout ∧
     (stDebounceButton (stDebounceButton c2St
          (some { evId := evButton_Task, evData := 2 }) true).st
        (some { evId := evButton_Task, evData := 2 }) true).extra =
      some kReasonTimeout) := by
  have h := debounce_timeout_behavior c2St
    { evId := evButton_Task, evData := 2 } (by decide) (by decide)
    (by decide) (by decide)
  exact ⟨by decide, by decide, by decide, by decide, h.1, h.2.2.2.2.1⟩

/-- C2 (counterexample): the transition table contains no row at all for a
Timeout exit of the DebounceRelease state, so a debounce timeout in that
state is not returned to ButtonReleased by the table (the lookup finds
nothing, for the tick event as for any other event id the debounce code
ever stores). -/
theorem debounce_release_timeout_has_no_row :
    lookupTransition .DebounceRelease evButton_Task 1 kReasonTimeout =
      none ∧
    (lookupTransition .DebounceRelease evButton_Task 1
        kReasonTimeout).map TransRow.next ≠ some .ButtonReleased ∧
    lookupTransition .DebounceRelease evBtnReleased 1 kReasonTimeout =
      none ∧
    lookupTransition .DebounceRelease evBntPressed 1 kReasonTimeout =
      none := by
  decide

/-- Shape of the global state while a button sits in the debounce operate
phase fed from an exhausted stream: clock at n, accumulator rb, shared
scratch timer scr, saved inbound event id evButton_Task, debounce deadline
armed at entry time st.now + tmr10ms. -/
def dbMidState (st : BtnSt) (i n rb scr : Nat) : BtnSt :=
  { st with
    now := n,
    inputbits := Function.update st.inputbits i 0,
    dbTmrScratch := scr,
    dbEvId := Function.update st.dbEvId i evButton_Task,
    dbPhase := Function.update st.dbPhase i kStateOperational,
    dbReadBits := Function.update st.dbReadBits i rb,
    dbTimer := Function.update st.dbTimer i
      (st.now + tmr10ms + kTmButtonDebounceTime) }

/-- Shape of the global state right after a debounce operate cycle reached
a terminal accumulator pattern rb with recognized event id eid. -/
def dbExitState (st : BtnSt) (i n rb eid : Nat) : BtnSt :=
  { st with
    now := n,
    inputbits := Function.update st.inputbits i 0,
    dbTmrScratch := st.now + tmr10ms + kTmButtonDebounceTime,
    dbEvId := Function.update st.dbEvId i eid,
    dbReason3 := Function.update st.dbReason3 i kReasonDebounced,
    dbPhase := Function.update st.dbPhase i kStateExit,
    dbReadBits := Function.update st.dbReadBits i rb,
    dbTimer := Function.update st.dbTimer i
      (st.now + tmr10ms + kTmButtonDebounceTime) }

/-- Entry tick of the debounce routine: any phase value other than
Operational and Exit runs the entry action, which seeds the accumulator
with 1, saves the inbound event id and arms the debounce timer. -/
lemma dbTick_entry (st : BtnSt) (i : Nat)
    (hp1 : st.dbPhase i ≠ kStateOperational)
    (hp2 : st.dbPhase i ≠ kStateExit) (hs : st.inputbits i = 0) :
    dbTick i st = dbMidState st i (st.now + tmr10ms) 1 st.dbTmrScratch := by
  have hup : Function.update st.inputbits i 0 = st.inputbits := by
    rw [← hs]; exact Function.update_eq_self i st.inputbits
  simp [dbTick, stDebounceButton, dbMidState, hp1, hp2, hup]

/-- Operate tick that stays: accumulator neither terminal, timer not
expired. -/
lemma dbTick_mid_stay (st : BtnSt) (i n rb scr rb' : Nat)
    (hrb : ((rb <<< 1) |||
      (if Nat.testBit st.buttonstatus i then 1 else 0)) % 256 = rb')
    (h0 : rb' ≠ 0) (hff : rb' ≠ 255)
    (ht : ¬ (st.now + tmr10ms + kTmButtonDebounceTime ≤ n + tmr10ms)) :
    dbTick i (dbMidState st i n rb scr) =
      dbMidState st i (n + tmr10ms) rb'
        (st.now + tmr10ms + kTmButtonDebounceTime) := by
  simp only [dbTick, stDebounceButton, dbMidState,
    di_read_next_button_input_bit, Function.update_same]
  norm_num [hrb, h0, hff, ht, Function.update_idem]

/-- Operate tick that completes a press: accumulator reaches 0xFF. -/
lemma dbTick_mid_doneFF (st : BtnSt) (i n rb scr : Nat)
    (hrb : ((rb <<< 1) |||
      (if Nat.testBit st.buttonstatus i then 1 else 0)) % 256 = 255) :
    dbTick i (dbMidState st i n rb scr) =
      dbExitState st i (n + tmr10ms) 255 evBntPressed := by
  simp only [dbTick, stDebounceButton, dbMidState, dbExitState,
    di_read_next_button_input_bit, Function.update_same]
  norm_num [hrb, Function.update_idem]

/-- Operate tick that completes a release: accumulator reaches 0x00. -/
lemma dbTick_mid_done0 (st : BtnSt) (i n rb scr : Nat)
    (hrb : ((rb <<< 1) |||
      (if Nat.testBit st.buttonstatus i then 1 else 0)) % 256 = 0) :
    dbTick i (dbMidState st i n rb scr) =
      dbExitState st i (n + tmr10ms) 0 evBtnReleased := by
  simp only [dbTick, stDebounceButton, dbMidState, dbExitState,
    di_read_next_button_input_bit, Function.update_same]
  norm_num [hrb, Function.update_idem]

/-- Exit tick: with the phase marker at Exit, the invocation writes back
the saved event id, the button index and the stored reason, and returns
the Finished code. -/
lemma dbStep_exit (st : BtnSt) (i : Nat) (hp : st.dbPhase i = kStateExit) :
    (dbStep i st).ev = some { evId := st.dbEvId i, evData := i } ∧
    (dbStep i st).extra = some (st.dbReason3 i) ∧
    (dbStep i st).ret = kStateFinished := by
  simp [dbStep, stDebounceButton, hp, kStateOperational, kStateExit]

/-- C1 (amended): a button entering a debounce state (any phase value
other than Operational and Exit triggers the entry action) and fed a
constant bit b from the digital-input layer (exhausted synthetic stream,
buttonstatus bit = b) has its accumulator seeded to 1 on entry and shifted
left and OR'd with the read bit each operate cycle; with b = 1 it is still
operating after 6 operate cycles and exits on the 7th with accumulator
0xFF, reason Debounced and event Pressed (8 consecutive 1-bits counting
the seeding bit); with b = 0 it is still operating after 7 operate cycles
and exits on the 8th with accumulator 0x00, reason Debounced and event
Released; the following invocation performs the exit write-back. In both
polarities the exit comes within at most 8 operate cycles, well before the
600-tic debounce timer can expire. -/
theorem debounce_convergence (st : BtnSt) (i : Nat)
    (hi : i < kBoardNumButtons)
    (hp1 : st.dbPhase i ≠ kStateOperational)
    (hp2 : st.dbPhase i ≠ kStateExit)
    (hs : st.inputbits i = 0) :
    (Nat.testBit st.buttonstatus i = true →
      (dbRun i 7 st).dbPhase i = kStateOperational ∧
      (dbRun i 8 st).dbPhase i = kStateExit ∧
      (dbRun i 8 st).dbReadBits i = 255 ∧
      (dbRun i 8 st).dbReason3 i = kReasonDebounced ∧
      (dbRun i 8 st).dbEvId i = evBntPressed ∧
      (dbStep i (dbRun i 8 st)).ev =
        some { evId := evBntPressed, evData := i } ∧
      (dbStep i (dbRun i 8 st)).extra = some kReasonDebounced ∧
      (dbStep i (dbRun i 8 st)).ret = kStateFinished) ∧
    (Nat.testBit st.buttonstatus i = false →
      (dbRun i 8 st).dbPhase i = kStateOperational ∧
      (dbRun i 9 st).dbPhase i = kStateExit ∧
      (dbRun i 9 st).dbReadBits i = 0 ∧
      (dbRun i 9 st).dbReason3 i = kReasonDebounced ∧
      (dbRun i 9 st).dbEvId i = evBtnReleased ∧
      (dbStep i (dbRun i 9 st)).ev =
        some { evId := evBtnReleased, evData := i } ∧
      (dbStep i (dbRun i 9 st)).extra = some kReasonDebounced ∧
      (dbStep i (dbRun i 9 st)).ret = kStateFinished) := by
  constructor
  · intro hb
    have e1 := dbTick_entry st i hp1 hp2 hs
    have e2 := dbTick_mid_stay st i (st.now + tmr10ms) 1 st.dbTmrScratch 3
      (by rw [hb]; decide) (by decide) (by decide)
      (by simp only [tmr10ms, kTmButtonDebounceTime, tmr500ms, tmr100ms]; omega)
    have e3 := dbTick_mid_stay st i (st.now + tmr10ms + tmr10ms) 3
      (st.now + tmr10ms + kTmButtonDebounceTime) 7
      (by rw [hb]; decide) (by decide) (by decide)
      (by simp only [tmr10ms, kTmButtonDebounceTime, tmr500ms, tmr100ms]; omega)
    have e4 := dbTick_mid_stay st i (st.now + tmr10ms + tmr10ms + tmr10ms) 7
      (st.now + tmr10ms + kTmButtonDebounceTime) 15
      (by rw [hb]; decide) (by decide) (by decide)
      (by simp only [tmr10ms, kTmButtonDebounceTime, tmr500ms, tmr100ms]; omega)
    have e5 := dbTick_mid_stay st i
      (st.now + tmr10ms + tmr10ms + tmr10ms + tmr10ms) 15
      (st.now + tmr10ms + kTmButtonDebounceTime) 31
      (by rw [hb]; decide) (by decide) (by decide)
      (by simp only [tmr10ms, kTmButtonDebounceTime, tmr500ms, tmr100ms]; omega)
    have e6 := dbTick_mid_stay st i
      (st.now + tmr10ms + tmr10ms + tmr10ms + tmr10ms + tmr10ms) 31
      (st.now + tmr10ms + kTmButtonDebounceTime) 63
      (by rw [hb]; decide) (by decide) (by decide)
      (by simp only [tmr10ms, kTmButtonDebounceTime, tmr500ms, tmr100ms]; omega)
    have e7 := dbTick_mid_stay st i
      (st.now + tmr10ms + tmr10ms + tmr10ms + tmr10ms + tmr10ms + tmr10ms)
      63 (st.now + tmr10ms + kTmButtonDebounceTime) 127
      (by rw [hb]; decide) (by decide) (by decide)
      (by simp only [tmr10ms, kTmButtonDebounceTime, tmr500ms, tmr100ms]; omega)
    have e8 := dbTick_mid_doneFF st i
      (st.now + tmr10ms + tmr10ms + tmr10ms + tmr10ms + tmr10ms + tmr10ms +
        tmr10ms) 127 (st.now + tmr10ms + kTmButtonDebounceTime)
      (by rw [hb]; decide)
    have r7 : dbRun i 7 st =
        dbMidState st i
          (st.now + tmr10ms + tmr10ms + tmr10ms + tmr10ms + tmr10ms +
            tmr10ms + tmr10ms) 127
          (st.now + tmr10ms + kTmButtonDebounceTime) := by
      show dbTick i (dbTick i (dbTick i (dbTick i (dbTick i (dbTick i
        (dbTick i st)))))) = _
      rw [e1, e2, e3, e4, e5, e6, e7]
    have r8 : dbRun i 8 st =
        dbExitState st i
          (st.now + tmr10ms + tmr10ms + tmr10ms + tmr10ms + tmr10ms +
            tmr10ms + tmr10ms + tmr10ms) 255 evBntPressed := by
      show dbTick i (dbRun i 7 st) = _
      rw [r7, e8]
    have hexit : (dbRun i 8 st).dbPhase i = kStateExit := by
      rw [r8]; simp [dbExitState]
    have hout := dbStep_exit (dbRun i 8 st) i hexit
    refine ⟨?_, hexit, ?_, ?_, ?_, ?_, ?_, hout.2.2⟩
    · rw [r7]; simp [dbMidState]
    · rw [r8]; simp [dbExitState]
    · rw [r8]; simp [dbExitState]
    · rw [r8]; simp [dbExitState]
    · rw [hout.1, r8]; simp [dbExitState]
    · rw [hout.2.1, r8]; simp [dbExitState]
  · intro hb
    have e1 := dbTick_entry st i hp1 hp2 hs
    have e2 := dbTick_mid_stay st i (st.now + tmr10ms) 1 st.dbTmrScratch 2
      (by rw [hb]; decide) (by decide) (by decide)
      (by simp only [tmr10ms, kTmButtonDebounceTime, tmr500ms, tmr100ms]; omega)
    have e3 := dbTick_mid_stay st i (st.now + tmr10ms + tmr10ms) 2
      (st.now + tmr10ms + kTmButtonDebounceTime) 4
      (by rw [hb]; decide) (by decide) (by decide)
      (by simp only [tmr10ms, kTmButtonDebounceTime, tmr500ms, tmr100ms]; omega)
    have e4 := dbTick_mid_stay st i (st.now + tmr10ms + tmr10ms + tmr10ms) 4
      (st.now + tmr10ms + kTmButtonDebounceTime) 8
      (by rw [hb]; decide) (by decide) (by decide)
      (by simp only [tmr10ms, kTmButtonDebounceTime, tmr500ms, tmr100ms]; omega)
    have e5 := dbTick_mid_stay st i
      (st.now + tmr10ms + tmr10ms + tmr10ms + tmr10ms) 8
      (st.now + tmr10ms + kTmButtonDebounceTime) 16
      (by rw [hb]; decide) (by decide) (by decide)
      (by simp only [tmr10ms, kTmButtonDebounceTime, tmr500ms, tmr100ms]; omega)
    have e6 := dbTick_mid_stay st i
      (st.now + tmr10ms + tmr10ms + tmr10ms + tmr10ms + tmr10ms) 16
      (st.now + tmr10ms + kTmButtonDebounceTime) 32
      (by rw [hb]; decide) (by decide) (by decide)
      (by simp only [tmr10ms, kTmButtonDebounceTime, tmr500ms, tmr100ms]; omega)
    have e7 := dbTick_mid_stay st i
      (st.now + tmr10ms + tmr10ms + tmr10ms + tmr10ms + tmr10ms + tmr10ms)
      32 (st.now + tmr10ms + kTmButtonDebounceTime) 64
      (by rw [hb]; decide) (by decide) (by decide)
      (by simp only [tmr10ms, kTmButtonDebounceTime, tmr500ms, tmr100ms]; omega)
    have e8 := dbTick_mid_stay st i
      (st.now + tmr10ms + tmr10ms + tmr10ms + tmr10ms + tmr10ms + tmr10ms +
        tmr10ms) 64 (st.now + tmr10ms + kTmButtonDebounceTime) 128
      (by rw [hb]; decide) (by decide) (by decide)
      (by simp only [tmr10ms, kTmButtonDebounceTime, tmr500ms, tmr100ms]; omega)
    have e9 := dbTick_mid_done0 st i
      (st.now + tmr10ms + tmr10ms + tmr10ms + tmr10ms + tmr10ms + tmr10ms +
        tmr10ms + tmr10ms) 128 (st.now + tmr10ms + kTmButtonDebounceTime)
      (by rw [hb]; decide)
    have r8 : dbRun i 8 st =
        dbMidState st i
          (st.now + tmr10ms + tmr10ms + tmr10ms + tmr10ms + tmr10ms +
            tmr10ms + tmr10ms + tmr10ms) 128
          (st.now + tmr10ms + kTmButtonDebounceTime) := by
      show dbTick i (dbTick i (dbTick i (dbTick i (dbTick i (dbTick i
        (dbTick i (dbTick i st))))))) = _
      rw [e1, e2, e3, e4, e5, e6, e7, e8]
    have r9 : dbRun i 9 st =
        dbExitState st i
          (st.now + tmr10ms + tmr10ms + tmr10ms + tmr10ms + tmr10ms +
            tmr10ms + tmr10ms + tmr10ms + tmr10ms) 0 evBtnReleased := by
      show dbTick i (dbRun i 8 st) = _
      rw [r8, e9]
    have hexit : (dbRun i 9 st).dbPhase i = kStateExit := by
      rw [r9]; simp [dbExitState]
    have hout := dbStep_exit (dbRun i 9 st) i hexit
    refine ⟨?_, hexit, ?_, ?_, ?_, ?_, ?_, hout.2.2⟩
    · rw [r8]; simp [dbMidState]
    · rw [r9]; simp [dbExitState]
    · rw [r9]; simp [dbExitState]
    · rw [r9]; simp [dbExitState]
    · rw [hout.1, r9]; simp [dbExitState]
    · rw [hout.2.1, r9]; simp [dbExitState]

/-- Concrete state for the C1 witness: button 0 freshly entering a debounce
state, exhausted stream, buttonstatus bit 0 set (constant 1 bits). -/
def c1wSt : BtnSt := { zeroSt with buttonstatus := 1 }

/-- C1 witness: the convergence theorem applied to button 0 held at
constant 1. -/
theorem debounce_convergence_witness :
    (0 < kBoardNumButtons ∧ c1wSt.dbPhase 0 ≠ kStateOperational ∧
      c1wSt.dbPhase 0 ≠ kStateExit ∧ c1wSt.inputbits 0 = 0 ∧
      Nat.testBit c1wSt.buttonstatus 0 = true) ∧
    ((dbRun 0 8 c1wSt).dbReadBits 0 = 255 ∧
      (dbRun 0 8 c1wSt).dbEvId 0 = evBntPressed ∧
      (dbRun 0 7 c1wSt).dbPhase 0 = kStateOperational) := by
  refine ⟨⟨by decide, by decide, by decide, rfl, by decide⟩, ?_⟩
  have h := (debounce_convergence c1wSt 0 (by decide) (by decide)
    (by decide) rfl).1 (by decide)
  exact ⟨h.2.2.1, h.2.2.2.2.1, h.1⟩

/-- Concrete state for the C1 counterexample: button 1 freshly entering a
debounce state, exhausted stream, buttonstatus bit 1 set (constant 1
bits). -/
def c1cSt : BtnSt := { zeroSt with buttonstatus := 2 }

/-- C1 (counterexample): with constant bit 1, eight invocations (one entry
plus seven operate cycles) already leave the debounce state in its exit
phase with accumulator 0xFF, reason Debounced and event Pressed, and the
ninth invocation is the exit write-back (return code Finished) — the press
recognition takes exactly 7 operate cycles, not 8, so the claimed uniform
count of exactly 8 operate cycles fails for b = 1. -/
theorem debounce_press_exits_on_seventh_cycle :
    (dbRun 1 7 c1cSt).dbPhase 1 = kStateOperational ∧
    (dbRun 1 8 c1cSt).dbPhase 1 = kStateExit ∧
    (dbRun 1 8 c1cSt).dbReadBits 1 = 255 ∧
    (dbRun 1 8 c1cSt).dbReason3 1 = kReasonDebounced ∧
    (dbRun 1 8 c1cSt).dbEvId 1 = evBntPressed ∧
    (dbStep 1 (dbRun 1 8 c1cSt)).ret = kStateFinished := by
  decide

/-- Exit-reason write-back contract of the five state functions for the
button carried in the inbound event's data word: on an exit-phase
invocation, Start writes (saved id, button, None), Released writes
(inbound id, button, TwitchNoted), the shared debounce routine writes
(saved id, button, stored reason — Debounced or Timeout whenever the
operate cycle decided the exit), Stuck writes (saved id, button,
ButtonUnstuck), while Pressed writes (saved id, reason2, reason3) where
the operate cycle stored either (button, TwitchNoted) or — on the
stuck-timeout path — (0, Timeout): the stuck-timeout exit does not carry
the button index. -/
def ExitTripleSpec (st : BtnSt) (ev : EvQEvent) : Prop :=
  let i := ev.evData
  (st.stPhase i = kStateExit →
    (stStart st (some ev) true).ev = some { evId := st.stEvId i, evData := i } ∧
    (stStart st (some ev) true).extra = some kReasonNone) ∧
  (st.relPhase i = kStateExit →
    (stButtonReleased st (some ev) true).ev =
      some { evId := ev.evId, evData := i } ∧
    (stButtonReleased st (some ev) true).extra = some kReasonTwitchNoted) ∧
  (st.dbPhase i = kStateExit →
    (stDebounceButton st (some ev) true).ev =
      some { evId := st.dbEvId i, evData := i } ∧
    (stDebounceButton st (some ev) true).extra = some (st.dbReason3 i)) ∧
  (st.dbPhase i = kStateOperational →
    (stDebounceButton st (some ev) true).st.dbPhase i = kStateExit →
    ((stDebounceButton st (some ev) true).st.dbReason3 i = kReasonDebounced ∨
      (stDebounceButton st (some ev) true).st.dbReason3 i = kReasonTimeout)) ∧
  (st.prPhase i = kStateExit →
    (stButtonPressed st (some ev) true).ev =
      some { evId := st.prEvId i, evData := st.prReason2 i } ∧
    (stButtonPressed st (some ev) true).extra = some (st.prReason3 i)) ∧
  (st.prPhase i = kStateOperational →
    (stButtonPressed st (some ev) true).st.prPhase i = kStateExit →
    (((stButtonPressed st (some ev) true).st.prReason2 i = i ∧
        (stButtonPressed st (some ev) true).st.prReason3 i =
          kReasonTwitchNoted) ∨
      ((stButtonPressed st (some ev) true).st.prReason2 i = 0 ∧
        (stButtonPressed st (some ev) true).st.prReason3 i =
          kReasonTimeout))) ∧
  (st.skPhase i = kStateExit →
    (stButtonStuck st (some ev) true).ev =
      some { evId := st.skEvId i, evData := i } ∧
    (stButtonStuck st (some ev) true).extra = some kReasonButtonUnstuck)

/-- C4 (amended): every state function's exit-phase invocation writes back
the triple (event id, evData, reason) with the reason drawn from
{None, TwitchNoted, Debounced, Timeout, ButtonUnstuck}; the evData written
is the button index for Start, Released, the shared debounce routine and
Stuck, whereas ButtonPressed writes its stored reason2, which the operate
cycle sets to the button index on the twitch path but to 0 on the
stuck-timeout path. -/
theorem exit_reason_triple (st : BtnSt) (ev : EvQEvent) :
    ExitTripleSpec st ev := by
  unfold ExitTripleSpec
  refine ⟨?_, ?_, ?_, ?_, ?_, ?_, ?_⟩
  · intro hp
    simp [stStart, hp, kStateExit, kStateOperational]
  · intro hp
    simp [stButtonReleased, hp, kStateExit, kStateOperational]
  · intro hp
    simp [stDebounceButton, hp, kStateExit, kStateOperational]
  · intro hp hexit
    simp only [stDebounceButton, hp, reduceIte] at hexit ⊢
    split_ifs at hexit ⊢ <;>
      simp_all [Function.update_same, di_read_snd, kStateOperational,
        kStateExit]
  · intro hp
    simp [stButtonPressed, hp, kStateExit, kStateOperational]
  · intro hp hexit
    simp only [stButtonPressed, hp, reduceIte] at hexit ⊢
    split_ifs at hexit ⊢ <;>
      simp_all [Function.update_same, di_read_snd, kStateOperational,
        kStateExit]
  · intro hp
    simp [stButtonStuck, hp, kStateExit, kStateOperational]

/-- Concrete state for the C4 witness: button 1 poised at the exit phase of
all five state functions. -/
def c4wSt : BtnSt :=
  { zeroSt with
    stPhase := Function.update zeroSt.stPhase 1 kStateExit,
    relPhase := Function.update zeroSt.relPhase 1 kStateExit,
    dbPhase := Function.update zeroSt.dbPhase 1 kStateExit,
    prPhase := Function.update zeroSt.prPhase 1 kStateExit,
    skPhase := Function.update zeroSt.skPhase 1 kStateExit }

/-- C4 witness: the write-back contract instantiated at button 1. -/
theorem exit_reason_triple_witness :
    ExitTripleSpec c4wSt { evId := evButton_Task, evData := 1 } :=
  exit_reason_triple c4wSt { evId := evButton_Task, evData := 1 }

/-- Concrete state for the C4 counterexample: button 1 in the pressed
state's operate phase, stuck timer long expired, constant 1 bits. -/
def c4St : BtnSt :=
  { zeroSt with
    now := 100,
    buttonstatus := 2,
    prPhase := Function.update zeroSt.prPhase 1 kStateOperational,
    prEvId := Function.update zeroSt.prEvId 1 evButton_Task }

/-- C4 (counterexample): driving button 1 through the pressed state's
stuck-timeout exit (one operate invocation with the timer expired, then
the exit invocation) writes back evData 0, not the button index 1: the
claim that every exit path writes the button index fails on the
ButtonPressed stuck-timeout exit. -/
theorem pressed_timeout_exit_drops_button_index :
    ((stButtonPressed (stButtonPressed c4St
          (some { evId := evButton_Task, evData := 1 }) true).st
        (some { evId := evButton_Task, evData := 1 }) true).ev =
      some { evId := evButton_Task, evData := 0 }) ∧
    ((stButtonPressed (stButtonPressed c4St
          (some { evId := evButton_Task, evData := 1 }) true).st
        (some { evId := evButton_Task, evData := 1 }) true).extra =
      some kReasonTimeout) ∧
    (some { evId := evButton_Task, evData := 0 } : Option EvQEvent) ≠
      some { evId := evButton_Task, evData := 1 } := by
  decide

end CwswBoard
